import Mathlib

/-!
Verification of the SecureFileUploadService upload lifecycle engine.

Shallow embedding of the Python sources:
  * `app/services/state.py`      — state machine (`FileState`, `can_transition`)
  * `app/services/quota.py`      — per-owner usage counters
  * `app/services/file_type_policy.py` — extension/MIME/magic validator
  * `app/services/scanner.py`    — scan worker decision procedure
  * `app/api/routers/files.py`   — `complete` and `download-url` endpoints
  * `app/api/deps.py`            — demo-session token create/verify

External effects (blob store contents, libmagic, SHA-256 digests, HMAC,
clock) are passed in as explicit oracle inputs, so every function here is
a pure, executable translation of the corresponding Python control flow.
-/

namespace SecureFileUpload

/-! ## State machine — `app/services/state.py` -/

inductive FileState where
  | INITIATED
  | UPLOADED
  | SCANNING
  | ACTIVE
  | QUARANTINED
  | REJECTED
deriving DecidableEq, Repr, Fintype

/-- `ALLOWED_TRANSITIONS` table (state.py lines 13-20). -/
def allowedTransitions : FileState → List FileState
  | .INITIATED => [.UPLOADED, .REJECTED, .QUARANTINED]
  | .UPLOADED => [.SCANNING, .ACTIVE, .QUARANTINED]
  | .SCANNING => [.ACTIVE, .QUARANTINED]
  | .ACTIVE => []
  | .QUARANTINED => [.REJECTED]
  | .REJECTED => []

/-- `can_transition` (state.py lines 23-24). -/
def can_transition (current target : FileState) : Bool :=
  target ∈ allowedTransitions current

/-! ## Quota service — `app/services/quota.py` -/

def MAX_FILES : Nat := 200

def MAX_BYTES : Nat := 2000000000

structure UsageCounter where
  files_count : Nat
  bytes_stored : Nat
deriving DecidableEq, Repr

/-- `QuotaService.enforce_init`: raises (`.error`) iff `files_count >= MAX_FILES`;
never mutates the counter. -/
def enforce_init (c : UsageCounter) : Except String Unit :=
  if c.files_count ≥ MAX_FILES then .error "quota exceeded" else .ok ()

/-- `QuotaService.increment_on_active`. Python passes `file_size or 0`,
so a missing size counts as 0 bytes. -/
def increment_on_active (c : UsageCounter) (file_size : Option Nat) :
    Except String UsageCounter :=
  let new_files := c.files_count + 1
  let new_bytes := c.bytes_stored + file_size.getD 0
  if new_files > MAX_FILES ∨ new_bytes > MAX_BYTES then .error "quota exceeded"
  else .ok ⟨new_files, new_bytes⟩

/-- `QuotaService.decrement_on_delete`; Python clamps with `max(0, _)`,
which truncated subtraction on `Nat` reproduces exactly. -/
def decrement_on_delete (c : UsageCounter) (file_size : Option Nat) : UsageCounter :=
  ⟨c.files_count - 1, c.bytes_stored - file_size.getD 0⟩

/-- One externally observable quota operation. -/
inductive QuotaOp where
  | init
  | incr (file_size : Option Nat)
  | decr (file_size : Option Nat)

/-- Effect of an operation on the stored counter (a failed increment leaves
the row untouched, matching the fact that the Python exception path never
assigns the new values). -/
def applyQuotaOp (c : UsageCounter) : QuotaOp → UsageCounter
  | .init => c
  | .incr sz =>
    match increment_on_active c sz with
    | .ok c2 => c2
    | .error _ => c
  | .decr sz => decrement_on_delete c sz

def runQuotaOps (c : UsageCounter) (ops : List QuotaOp) : UsageCounter :=
  ops.foldl applyQuotaOp c

/-! ## String helpers shared by policy / scanner / endpoints -/

/-- Python `value.split(";")[0]` and `value.split(";", 1)[0]`: the prefix
before the first semicolon (the whole string when none occurs). -/
def splitSemiFirst (s : String) : String :=
  ⟨s.data.takeWhile (fun c => c ≠ ';')⟩

/-- ASCII whitespace stripped by Python `str.strip()`. -/
def pyIsSpace (c : Char) : Bool :=
  c = ' ' || c = '\t' || c = '\n' || c = '\r' ||
    c = Char.ofNat 11 || c = Char.ofNat 12

/-- Python `str.strip()` on the ASCII plane. -/
def pyStrip (l : List Char) : List Char :=
  ((l.dropWhile pyIsSpace).reverse.dropWhile pyIsSpace).reverse

/-- Python `str.lower()` on the ASCII plane (MIME strings are ASCII). -/
def pyToLower (c : Char) : Char :=
  if 65 ≤ c.toNat ∧ c.toNat ≤ 90 then Char.ofNat (c.toNat + 32) else c

def pyLower (l : List Char) : List Char :=
  l.map pyToLower

/-- `_base_mime` (file_type_policy.py lines 115-118): `None`/empty is
falsy; otherwise strip parameters, whitespace, and lower-case. -/
def base_mime (value : Option String) : Option String :=
  match value with
  | none => none
  | some v =>
    if v = "" then none
    else some ⟨pyLower (pyStrip (splitSemiFirst v).data)⟩

/-- Last `/`-separated component of a POSIX path (pathlib `.name` for the
filenames at hand). -/
def lastComponent (l : List Char) : List Char :=
  (l.foldl (fun acc c => if c = '/' then [] else acc ++ [c]) [])

/-- Index of the last occurrence of `'.'`, as in Python `str.rfind('.')`. -/
def rfindDot (l : List Char) : Option Nat :=
  (l.foldl (fun (st : Nat × Option Nat) c =>
      (st.1 + 1, if c = '.' then some st.1 else st.2)) (0, none)).2

/-- `PurePath(filename).suffix`: last-dot split of the final component,
empty unless `0 < i < len(name) - 1`. -/
def pathSuffix (filename : String) : String :=
  let name := lastComponent filename.data
  match rfindDot name with
  | none => ""
  | some i => if 0 < i ∧ i + 1 < name.length then ⟨name.drop i⟩ else ""

/-! ## File-type policy — `app/services/file_type_policy.py` -/

def DEFAULT_MAX_SIZE_BYTES : Nat := 50 * 1024 * 1024

structure FileTypePolicy where
  allowed : Bool
  expected_mimes : List String
  sniff_mimes : List String
  magic_prefixes : List (List Nat)
  max_size_bytes : Option Nat
deriving DecidableEq, Repr

/-- Byte string of an ASCII literal. -/
def asciiBytes (s : String) : List Nat :=
  s.data.map Char.toNat

def OFFICE_SNIFF_MIMES : List String :=
  [ "application/zip"
  , "application/octet-stream"
  , "application/vnd.openxmlformats-officedocument.wordprocessingml.document"
  , "application/vnd.openxmlformats-officedocument.spreadsheetml.sheet"
  , "application/vnd.openxmlformats-officedocument.presentationml.presentation" ]

def OFFICE_DECLARED_MIMES : List String :=
  ["application/zip", "application/octet-stream"]

def ZIP_MAGIC : List Nat := [0x50, 0x4B, 0x03, 0x04]

/-- `FILE_TYPE_POLICIES` lookup (the Python dict keyed by extension). -/
def FILE_TYPE_POLICIES (ext : String) : Option FileTypePolicy :=
  if ext = ".pdf" then
    some ⟨true, ["application/pdf"], ["application/pdf"], [asciiBytes "%PDF-"], none⟩
  else if ext = ".txt" then
    some ⟨true, ["text/plain"], ["text/plain"], [], none⟩
  else if ext = ".csv" then
    some ⟨true, ["text/csv", "application/csv"], ["text/plain", "text/csv"], [], none⟩
  else if ext = ".png" then
    some ⟨true, ["image/png"], ["image/png"],
      [[0x89, 0x50, 0x4E, 0x47, 0x0D, 0x0A, 0x1A, 0x0A]], none⟩
  else if ext = ".jpg" then
    some ⟨true, ["image/jpeg"], ["image/jpeg"], [[0xFF, 0xD8, 0xFF]], none⟩
  else if ext = ".jpeg" then
    some ⟨true, ["image/jpeg"], ["image/jpeg"], [[0xFF, 0xD8, 0xFF]], none⟩
  else if ext = ".gif" then
    some ⟨true, ["image/gif"], ["image/gif"],
      [asciiBytes "GIF87a", asciiBytes "GIF89a"], none⟩
  else if ext = ".docx" then
    some ⟨true,
      "application/vnd.openxmlformats-officedocument.wordprocessingml.document"
        :: OFFICE_DECLARED_MIMES,
      OFFICE_SNIFF_MIMES, [ZIP_MAGIC], none⟩
  else if ext = ".xlsx" then
    some ⟨true,
      "application/vnd.openxmlformats-officedocument.spreadsheetml.sheet"
        :: OFFICE_DECLARED_MIMES,
      OFFICE_SNIFF_MIMES, [ZIP_MAGIC], none⟩
  else if ext = ".pptx" then
    some ⟨true,
      "application/vnd.openxmlformats-officedocument.presentationml.presentation"
        :: OFFICE_DECLARED_MIMES,
      OFFICE_SNIFF_MIMES, [ZIP_MAGIC], none⟩
  else none

/-- `_policy_for_filename` (file_type_policy.py lines 121-126). -/
def policy_for_filename (filename : String) :
    Option (String × FileTypePolicy) :=
  let ext : String := ⟨pyLower (pathSuffix filename).data⟩
  match FILE_TYPE_POLICIES ext with
  | none => none
  | some p => some (ext, p)

/-- Validation outcome; the JSON `details` payload is carried by the Python
dataclass but no claim depends on it, so only `ok` and `reason` are kept. -/
structure ValidationResult where
  ok : Bool
  reason : Option String
deriving DecidableEq, Repr

/-- Python truthiness of an optional byte string (`not sample_bytes`). -/
def bytesTruthy (b : Option (List Nat)) : Bool :=
  match b with
  | none => false
  | some l => l ≠ []

/-- `validate_upload_metadata` (file_type_policy.py lines 129-191),
following the elif chain exactly. -/
def validate_upload_metadata (original_filename declared_content_type : String)
    (sniffed_content_type : Option String) (size_bytes : Option Nat)
    (sample_bytes : Option (List Nat)) (max_size_bytes : Option Nat) :
    ValidationResult :=
  match policy_for_filename original_filename with
  | none => ⟨false, some "disallowed_extension"⟩
  | some (_, policy) =>
    let declared_base := base_mime (some declared_content_type)
    let sniffed_base := base_mime sniffed_content_type
    if policy.allowed = false then ⟨false, some "disallowed_extension"⟩
    else if (match max_size_bytes, size_bytes with
             | some m, some s => decide (s > m)
             | _, _ => false) = true then ⟨false, some "too_large"⟩
    else if (match policy.max_size_bytes, size_bytes with
             | some m, some s => decide (m ≠ 0) && decide (s > m)
             | _, _ => false) = true then ⟨false, some "type_size_limit"⟩
    else if (match declared_base with
             | none => true
             | some d => d ∉ policy.expected_mimes) then
      ⟨false, some "declared_mime_mismatch"⟩
    else if sniffed_base = none then ⟨false, some "sniff_missing"⟩
    else if (match sniffed_base with
             | none => false
             | some sb => sb ∉ policy.sniff_mimes) then
      ⟨false, some "sniff_mismatch"⟩
    else if policy.magic_prefixes ≠ [] ∧ ¬ bytesTruthy sample_bytes then
      ⟨false, some "magic_missing"⟩
    else if policy.magic_prefixes ≠ [] ∧
        ¬ policy.magic_prefixes.any
          (fun p => p.isPrefixOf (sample_bytes.getD [])) then
      ⟨false, some "magic_mismatch"⟩
    else ⟨true, none⟩

/-! ## FileObject rows and request context

`FileObject` follows the column set used by the router and the migrations
(`demo_id` is added by migration 0002 and used throughout `files.py`).
Timestamps are modelled as naive-UTC tick counts (`Nat`). -/

structure FileObject where
  owner_id : String
  demo_id : Option String
  original_filename : String
  declared_content_type : String
  checksum_sha256 : String
  checksum_verified : Bool
  size_bytes : Option Nat
  sniffed_content_type : Option String
  state : FileState
  upload_expires_at : Option Nat
deriving DecidableEq, Repr

inductive UserRole where
  | admin
  | user
deriving DecidableEq, Repr

structure AuthUser where
  id : String
  role : UserRole
deriving DecidableEq, Repr

/-- Python truthiness of an optional string (`if not demo_id`, `if
file_obj.demo_id`): `None` and `""` are falsy. -/
def strTruthy (o : Option String) : Bool :=
  match o with
  | none => false
  | some s => s ≠ ""

/-! ## Scan worker — `app/services/scanner.py` -/

def MAX_SIZE_BYTES : Nat := 50 * 1024 * 1024

/-- `OFFICE_ZIP_MIME_TYPES`: declared MIME → required ZIP entry names. -/
def OFFICE_ZIP_MIME_TYPES (mime : String) : Option (List String) :=
  if mime = "application/vnd.openxmlformats-officedocument.wordprocessingml.document" then
    some ["[Content_Types].xml", "word/document.xml"]
  else if mime = "application/vnd.openxmlformats-officedocument.spreadsheetml.sheet" then
    some ["[Content_Types].xml", "xl/workbook.xml"]
  else if mime = "application/vnd.openxmlformats-officedocument.presentationml.presentation" then
    some ["[Content_Types].xml", "ppt/presentation.xml"]
  else none

/-- Scanner-local `ALLOWED_CONTENT_TYPES` (scanner.py lines 35-44) —
distinct from the policy table's MIME list. -/
def SCANNER_ALLOWED_CONTENT_TYPES : List String :=
  [ "text/plain"
  , "application/pdf"
  , "image/png"
  , "image/jpeg"
  , "image/gif"
  , "image/webp"
  , "application/vnd.openxmlformats-officedocument.wordprocessingml.document"
  , "application/vnd.openxmlformats-officedocument.spreadsheetml.sheet"
  , "application/vnd.openxmlformats-officedocument.presentationml.presentation" ]

/-- Blob-store / detector oracle for one scan run. `zip_entries = none`
models `zipfile.BadZipFile`; `magic_mime = none` models the detector
raising; `object_total_size` is the number of bytes `iter_object` yields. -/
structure ScanEnv where
  head_content_length : Option Nat
  sample : Option (List Nat)
  magic_mime : Option String
  object_total_size : Nat
  zip_entries : Option (List String)
deriving Repr

/-- `_is_valid_office_zip` (scanner.py lines 47-67). -/
def is_valid_office_zip (env : ScanEnv) (declared_mime : String) : Bool :=
  match OFFICE_ZIP_MIME_TYPES declared_mime with
  | none => false
  | some required =>
    if env.object_total_size > MAX_SIZE_BYTES then false
    else
      match env.zip_entries with
      | none => false
      | some names => required.all (fun r => r ∈ names)

inductive ScanDecision where
  | quarantine (reason : String)
  | proceed
deriving DecidableEq, Repr

/-- The worker's pre-quota verdict (scanner.py lines 111-160): the "Rules"
block of `scan_file`, evaluated after `size_bytes` and the sniff have been
refreshed. `proceed` is the branch that sets `ACTIVE` and runs quota. -/
def scan_policy_decision (declared_content_type : String)
    (sniffed : Option String) (size_bytes : Option Nat) (env : ScanEnv) :
    ScanDecision :=
  match sniffed with
  | none => .quarantine "sniff_missing"
  | some sn =>
    if (match size_bytes with
        | some s => decide (s ≠ 0) && decide (s > MAX_SIZE_BYTES)
        | none => false) = true then .quarantine "too_large"
    else
      let declared_base := splitSemiFirst declared_content_type
      let sniff_base := splitSemiFirst sn
      let is_office_declared := (OFFICE_ZIP_MIME_TYPES declared_base).isSome
      let should_validate_office := is_office_declared &&
        (sniff_base = "application/zip" || sniff_base = "application/octet-stream")
      if should_validate_office && ! is_valid_office_zip env declared_base then
        .quarantine "office_zip_invalid"
      else
        let declared_ok := declared_base ∈ SCANNER_ALLOWED_CONTENT_TYPES
        let sniff_ok := sniff_base ∈ SCANNER_ALLOWED_CONTENT_TYPES ||
          should_validate_office
        if declared_ok && sniff_ok then .proceed
        else .quarantine "disallowed_type"

/-- The sniff value the worker ends up with: `magic.from_buffer` replaces
the stored value only when a non-empty sample was fetched, and a detector
exception keeps the previous value (`except: pass`). -/
def scanSniffed (row : FileObject) (env : ScanEnv) : Option String :=
  if bytesTruthy env.sample then
    match env.magic_mime with
    | some m => some m
    | none => row.sniffed_content_type
  else row.sniffed_content_type

structure ScanOutcome where
  result : String
  row : Option FileObject
  reason : Option String
  quota : UsageCounter
deriving Repr

/-- `scan_file` (scanner.py lines 84-200), with the quota counter for the
row's owner threaded explicitly. -/
def scan_file (row0 : Option FileObject) (env : ScanEnv)
    (counter : UsageCounter) : ScanOutcome :=
  match row0 with
  | none => ⟨"missing", none, none, counter⟩
  | some row =>
    if row.state ≠ FileState.SCANNING then ⟨"skip", some row, none, counter⟩
    else
      let row1 := { row with size_bytes := env.head_content_length }
      let sniffed := scanSniffed row env
      let row2 := { row1 with sniffed_content_type := sniffed }
      match scan_policy_decision row2.declared_content_type sniffed
          row2.size_bytes env with
      | .quarantine r =>
        ⟨"quarantined", some { row2 with state := .QUARANTINED }, some r, counter⟩
      | .proceed =>
        match increment_on_active counter (some (row2.size_bytes.getD 0)) with
        | .ok c2 =>
          ⟨"active", some { row2 with state := .ACTIVE }, none, c2⟩
        | .error _ =>
          ⟨"quarantined", some { row2 with state := .QUARANTINED },
            some "quota_exceeded", counter⟩

/-! ## `complete` endpoint — `app/api/routers/files.py` lines 181-339 -/

def DEMO_MAX_UPLOAD_BYTES : Nat := 10 * 1024 * 1024

structure HttpError where
  status : Nat
  detail : String
deriving DecidableEq, Repr

structure CompleteResponse where
  state : FileState
  sniffed_content_type : Option String
deriving DecidableEq, Repr

/-- Blob-store / hash / detector oracle for one `complete` call.
`head = none` models the S3 `NoSuchKey`/404 `ClientError`; `some cl`
carries `HEAD`'s optional `ContentLength`. `computed_sha256` is the hex
digest of the streamed object. -/
structure CompleteEnv where
  head : Option (Option Nat)
  computed_sha256 : String
  sample : Option (List Nat)
  magic_mime : Option String
deriving Repr

structure CompleteOutcome where
  response : Except HttpError CompleteResponse
  row : Option FileObject
  enqueued : Bool
  reason : Option String
deriving Repr

/-- Authorization prelude shared by `complete` and `download-url`
(files.py lines 195-209 and 404-418). -/
def fileAccessError (row : FileObject) (current_user : Option AuthUser)
    (demo_id : Option String) : Option HttpError :=
  match current_user with
  | some u =>
    if u.role ≠ UserRole.admin ∧ row.owner_id ≠ u.id then
      some ⟨403, "Forbidden"⟩
    else none
  | none =>
    if ¬ strTruthy demo_id then some ⟨401, "Start demo at POST /demo/start"⟩
    else if row.demo_id ≠ demo_id then some ⟨404, "File not found"⟩
    else none

/-- `complete_upload` (files.py lines 181-339). -/
def complete_upload (row0 : Option FileObject) (current_user : Option AuthUser)
    (demo_id : Option String) (env : CompleteEnv) (now : Nat) :
    CompleteOutcome :=
  match row0 with
  | none => ⟨.error ⟨404, "File not found"⟩, none, false, none⟩
  | some row =>
    match fileAccessError row current_user demo_id with
    | some e => ⟨.error e, some row, false, none⟩
    | none =>
      if row.state ≠ FileState.INITIATED then
        ⟨.error ⟨400, "Upload not in INITIATED state"⟩, some row, false, none⟩
      else if (match row.upload_expires_at with
               | some t => decide (t < now)
               | none => false) = true then
        ⟨.error ⟨400, "Upload request expired"⟩, some row, false, none⟩
      else
        match env.head with
        | none => ⟨.error ⟨400, "Object not uploaded"⟩, some row, false, none⟩
        | some content_length =>
          let row1 := { row with size_bytes := content_length }
          if strTruthy row1.demo_id &&
              (match row1.size_bytes with
               | some s => decide (s ≠ 0) && decide (s > DEMO_MAX_UPLOAD_BYTES)
               | none => false) then
            ⟨.ok ⟨.QUARANTINED, row1.sniffed_content_type⟩,
              some { row1 with state := .QUARANTINED }, false,
              some "demo_size_limit"⟩
          else if env.computed_sha256 ≠ row1.checksum_sha256 then
            ⟨.ok ⟨.REJECTED, row1.sniffed_content_type⟩,
              some { row1 with state := .REJECTED, checksum_verified := false },
              false, some "checksum_mismatch"⟩
          else
            let row2 := { row1 with checksum_verified := true }
            let sniffed := if bytesTruthy env.sample then env.magic_mime else none
            let row3 := { row2 with sniffed_content_type := sniffed }
            let validation := validate_upload_metadata row3.original_filename
              row3.declared_content_type sniffed row3.size_bytes env.sample
              (if strTruthy row3.demo_id then some DEMO_MAX_UPLOAD_BYTES
               else none)
            if validation.ok = false then
              ⟨.ok ⟨.QUARANTINED, sniffed⟩,
                some { row3 with state := .QUARANTINED }, false,
                validation.reason⟩
            else
              ⟨.ok ⟨.SCANNING, sniffed⟩,
                some { row3 with state := .SCANNING }, true, none⟩

/-! ## `download-url` endpoint — files.py lines 388-443 -/

structure DownloadUrlResponse where
  download_url : String
  expires_in : Nat
deriving DecidableEq, Repr

/-- `download_url` (files.py lines 388-443); the presigned URL string and
TTL are oracle inputs. -/
def download_url (row0 : Option FileObject) (current_user : Option AuthUser)
    (demo_id : Option String) (presigned : String) (ttl : Nat) :
    Except HttpError DownloadUrlResponse :=
  match row0 with
  | none => .error ⟨404, "File not found"⟩
  | some row =>
    match fileAccessError row current_user demo_id with
    | some e => .error e
    | none =>
      if decide (row.state ≠ FileState.ACTIVE) &&
          (match current_user with
           | none => true
           | some u => decide (u.role ≠ UserRole.admin)) then
        .error ⟨403, "File not available for download"⟩
      else .ok ⟨presigned, ttl⟩

/-! ## Demo session tokens — `app/api/deps.py` lines 62-100

The HMAC itself is an external keyed hash; it enters the model as an
oracle `mac : String → String` standing for
`hmac.new(secret, _, sha256).hexdigest()`. Byte/string conversions are
modelled on the ASCII plane (every token the service mints is ASCII);
multi-byte UTF-8 input decodes to `none`, and the lenient junk-skipping of
CPython's non-strict base64 decoder is narrowed to exact, padded input. -/

def b64Char (n : Nat) : Char :=
  if n < 26 then Char.ofNat (65 + n)
  else if n < 52 then Char.ofNat (97 + (n - 26))
  else if n < 62 then Char.ofNat (48 + (n - 52))
  else if n = 62 then '-'
  else '_'

def b64Val (c : Char) : Option Nat :=
  if 65 ≤ c.toNat ∧ c.toNat ≤ 90 then some (c.toNat - 65)
  else if 97 ≤ c.toNat ∧ c.toNat ≤ 122 then some (26 + (c.toNat - 97))
  else if 48 ≤ c.toNat ∧ c.toNat ≤ 57 then some (52 + (c.toNat - 48))
  else if c = '-' then some 62
  else if c = '_' then some 63
  else none

/-- `base64.urlsafe_b64encode` over a byte list. -/
def b64encode : List Nat → List Char
  | [] => []
  | [a] => [b64Char (a / 4), b64Char (a % 4 * 16), '=', '=']
  | [a, b] =>
    [b64Char (a / 4), b64Char (a % 4 * 16 + b / 16), b64Char (b % 16 * 4), '=']
  | a :: b :: c :: rest =>
    b64Char (a / 4) :: b64Char (a % 4 * 16 + b / 16) ::
      b64Char (b % 16 * 4 + c / 64) :: b64Char (c % 64) :: b64encode rest

/-- `base64.urlsafe_b64decode` over the token alphabet (exact padding
required; malformed input yields `none`, the caller's `except` → `None`). -/
def b64decode : List Char → Option (List Nat)
  | [] => some []
  | w :: x :: y :: z :: rest =>
    if y = '=' ∧ z = '=' ∧ rest = [] then
      match b64Val w, b64Val x with
      | some a, some b => some [a * 4 + b / 16]
      | _, _ => none
    else if z = '=' ∧ rest = [] then
      match b64Val w, b64Val x, b64Val y with
      | some a, some b, some c =>
        some [a * 4 + b / 16, b % 16 * 16 + c / 4]
      | _, _, _ => none
    else
      match b64Val w, b64Val x, b64Val y, b64Val z, b64decode rest with
      | some a, some b, some c, some d, some tail =>
        some ((a * 4 + b / 16) :: (b % 16 * 16 + c / 4) ::
          (c % 4 * 64 + d) :: tail)
      | _, _, _, _, _ => none
  | _ => none

/-- UTF-8 decoding restricted to the ASCII plane. -/
def strOfBytes (bs : List Nat) : Option String :=
  if bs.all (fun b => b < 128) then some ⟨bs.map Char.ofNat⟩ else none

def digitChar (d : Nat) : Char :=
  Char.ofNat (48 + d)

/-- Decimal digits, least significant first, with structural fuel (the
fuel `n + 1` below always suffices since `n / 10 < n` for `n ≥ 10`). -/
def natDigitsRevAux : Nat → Nat → List Char
  | n, fuel + 1 =>
    if n < 10 then [digitChar n]
    else digitChar (n % 10) :: natDigitsRevAux (n / 10) fuel
  | _, 0 => []

/-- Decimal digits of `n`, least significant first (Python `str(int)`). -/
def natDigitsRev (n : Nat) : List Char :=
  natDigitsRevAux n (n + 1)

def natRepr (n : Nat) : String :=
  ⟨(natDigitsRev n).reverse⟩

/-- Python `int(s)` on the canonical all-digit strings the token format
uses (`int` also tolerates signs/whitespace, which never occur here). -/
def parseNatDigits (l : List Char) : Option Nat :=
  if l ≠ [] ∧ l.all (fun c => decide (48 ≤ c.toNat) && decide (c.toNat ≤ 57)) then
    some (l.foldl (fun a c => a * 10 + (c.toNat - 48)) 0)
  else none

/-- Split at the first `'.'`: `some (before, after)`, or `none` if absent. -/
def splitFirstDot : List Char → Option (List Char × List Char)
  | [] => none
  | c :: rest =>
    if c = '.' then some ([], rest)
    else
      match splitFirstDot rest with
      | none => none
      | some (a, b) => some (c :: a, b)

/-- Python `decoded.split(".", 3)` unpacked into four variables; fewer
than three dots raises `ValueError` (→ `none`). -/
def split3 (l : List Char) :
    Option (List Char × List Char × List Char × List Char) :=
  match splitFirstDot l with
  | none => none
  | some (p1, r1) =>
    match splitFirstDot r1 with
    | none => none
    | some (p2, r2) =>
      match splitFirstDot r2 with
      | none => none
      | some (p3, r3) => some (p1, p2, p3, r3)

/-- `create_demo_token` (deps.py lines 66-77); `issued_at` is the
`int(time.time())` clock oracle. -/
def create_demo_token (mac : String → String) (demo_id : String)
    (issued_at expires_in : Nat) : String :=
  let payload := demo_id ++ "." ++ natRepr issued_at ++ "." ++ natRepr expires_in
  let signature := mac payload
  let token := payload ++ "." ++ signature
  ⟨b64encode (asciiBytes token)⟩

/-- `verify_demo_token` (deps.py lines 80-100): decode, split, constant-time
HMAC compare, then expiry check. -/
def verify_demo_token (mac : String → String) (now : Nat) (token : String) :
    Option String :=
  match b64decode token.data with
  | none => none
  | some bytes =>
    match strOfBytes bytes with
    | none => none
    | some decoded =>
      match split3 decoded.data with
      | none => none
      | some (d, i, t, sig) =>
        let payload : String := ⟨d⟩ ++ "." ++ ⟨i⟩ ++ "." ++ ⟨t⟩
        let expected := mac payload
        if sig ≠ expected.data then none
        else
          match parseNatDigits i, parseNatDigits t with
          | some issued_at, some expires_in =>
            if now > issued_at + expires_in then none else some ⟨d⟩
          | _, _ => none

/-! ## Helper lemmas -/

/-- Quota cap invariant. -/
def quotaInv (c : UsageCounter) : Prop :=
  c.files_count ≤ MAX_FILES ∧ c.bytes_stored ≤ MAX_BYTES

theorem applyQuotaOp_inv (c : UsageCounter) (op : QuotaOp) (h : quotaInv c) :
    quotaInv (applyQuotaOp c op) := by
  obtain ⟨h1, h2⟩ := h
  cases op with
  | init => exact ⟨h1, h2⟩
  | incr sz =>
    simp only [applyQuotaOp, increment_on_active]
    split
    · next heq =>
      split at heq
      · exact absurd heq (by simp)
      · next hle =>
        cases heq
        push_neg at hle
        exact ⟨hle.1, hle.2⟩
    · exact ⟨h1, h2⟩
  | decr sz =>
    exact ⟨Nat.le_trans (Nat.sub_le _ _) h1, Nat.le_trans (Nat.sub_le _ _) h2⟩

theorem runQuotaOps_inv (ops : List QuotaOp) (c : UsageCounter)
    (h : quotaInv c) : quotaInv (runQuotaOps c ops) := by
  induction ops generalizing c with
  | nil => exact h
  | cons op rest ih => exact ih _ (applyQuotaOp_inv c op h)

/-! ## Claim C1 — state machine shape -/

/-- C1, counterexample: the claim asserts `can_transition` accepts
INITIATED→SCANNING and that QUARANTINED is terminal; the code rejects the
former and allows QUARANTINED→REJECTED. -/
theorem C1_counterexample :
    can_transition FileState.INITIATED FileState.SCANNING = false ∧
    can_transition FileState.QUARANTINED FileState.REJECTED = true := by
  decide

/-- C1, amended: the state space has the six members of `FileState`
(including UPLOADED), and `can_transition s t` holds exactly for
INITIATED→{UPLOADED,REJECTED,QUARANTINED}, UPLOADED→{SCANNING,ACTIVE,
QUARANTINED}, SCANNING→{ACTIVE,QUARANTINED}, QUARANTINED→REJECTED; only
ACTIVE and REJECTED have no outgoing transition. -/
theorem C1_transition_table :
    (Finset.univ : Finset FileState).card = 6 ∧
    ∀ s t : FileState, can_transition s t = true ↔
      (s, t) ∈ ([ (FileState.INITIATED, FileState.UPLOADED)
                , (FileState.INITIATED, FileState.REJECTED)
                , (FileState.INITIATED, FileState.QUARANTINED)
                , (FileState.UPLOADED, FileState.SCANNING)
                , (FileState.UPLOADED, FileState.ACTIVE)
                , (FileState.UPLOADED, FileState.QUARANTINED)
                , (FileState.SCANNING, FileState.ACTIVE)
                , (FileState.SCANNING, FileState.QUARANTINED)
                , (FileState.QUARANTINED, FileState.REJECTED) ] :
        List (FileState × FileState)) := by
  exact ⟨by decide, by decide⟩

/-! ## Claim C6 — quota invariants and increment semantics -/

/-- C6: from a fresh counter every sequence of quota operations keeps
`files_count ≤ MAX_FILES` and `bytes_stored ≤ MAX_BYTES`;
`increment_on_active` fails (and the stored counter is unchanged) exactly
when `files_count+1 > MAX_FILES` or `bytes_stored+size > MAX_BYTES`, and
otherwise persists exactly `(files_count+1, bytes_stored+size)`;
`enforce_init` fails exactly when `files_count ≥ MAX_FILES`. -/
theorem C6_quota :
    (∀ ops : List QuotaOp,
      (runQuotaOps ⟨0, 0⟩ ops).files_count ≤ MAX_FILES ∧
      (runQuotaOps ⟨0, 0⟩ ops).bytes_stored ≤ MAX_BYTES) ∧
    (∀ (c : UsageCounter) (sz : Option Nat),
      (increment_on_active c sz = .error "quota exceeded" ↔
        c.files_count + 1 > MAX_FILES ∨ c.bytes_stored + sz.getD 0 > MAX_BYTES) ∧
      (increment_on_active c sz = .error "quota exceeded" →
        applyQuotaOp c (QuotaOp.incr sz) = c) ∧
      (c.files_count + 1 ≤ MAX_FILES → c.bytes_stored + sz.getD 0 ≤ MAX_BYTES →
        increment_on_active c sz =
          .ok ⟨c.files_count + 1, c.bytes_stored + sz.getD 0⟩)) ∧
    (∀ c : UsageCounter,
      enforce_init c = .error "quota exceeded" ↔ c.files_count ≥ MAX_FILES) := by
  refine ⟨?_, ?_, ?_⟩
  · intro ops
    exact runQuotaOps_inv ops ⟨0, 0⟩ ⟨Nat.zero_le _, Nat.zero_le _⟩
  · intro c sz
    refine ⟨?_, ?_, ?_⟩
    · simp only [increment_on_active]
      split
      · next h => simpa using h
      · next h => simpa using h
    · intro h
      simp [applyQuotaOp, h]
    · intro h1 h2
      simp only [increment_on_active]
      rw [if_neg (by omega)]
  · intro c
    simp only [enforce_init]
    split
    · next h => simpa using h
    · next h => simpa using h

/-- C6 witness: concrete instances of the invariant, a blocked increment
at the file cap, and a successful increment. -/
theorem C6_quota_witness :
    (runQuotaOps ⟨0, 0⟩ [QuotaOp.incr (some 5), QuotaOp.decr (some 5)]).files_count
      ≤ MAX_FILES ∧
    increment_on_active ⟨200, 0⟩ (some 1) = .error "quota exceeded" ∧
    increment_on_active ⟨1, 2⟩ (some 3) = .ok ⟨2, 5⟩ := by
  refine ⟨(C6_quota.1 _).1, ?_, ?_⟩
  · exact (C6_quota.2.1 ⟨200, 0⟩ (some 1)).1.mpr (by norm_num [MAX_FILES])
  · simpa using (C6_quota.2.1 ⟨1, 2⟩ (some 3)).2.2 (by norm_num [MAX_FILES])
      (by norm_num [MAX_BYTES])

/-! ## Claims C2, C3 — scan worker vs. the §4.3 validator -/

/-- A CSV upload in SCANNING: the §4.3 validator accepts it, the worker
does not. -/
def csvRow : FileObject :=
  ⟨"u1", none, "data.csv", "text/csv", "h", true, none, none,
    FileState.SCANNING, none⟩

def csvEnv : ScanEnv :=
  ⟨some 100, some (asciiBytes "a,b"), some "text/csv", 3, none⟩

/-- A `.docx` filename declared and sniffed as plain text: the worker
never parses it as a ZIP. -/
def docxTextRow : FileObject :=
  ⟨"u1", none, "a.docx", "text/plain", "h", true, none, none,
    FileState.SCANNING, none⟩

def docxTextEnv : ScanEnv :=
  ⟨some 9, some (asciiBytes "not-a-zip"), some "text/plain", 9, none⟩

/-- C2, counterexample: on `data.csv` declared and sniffed `text/csv`
(size 100), `validate_upload_metadata` with the 50 MiB default returns ok,
yet the scan worker quarantines (`disallowed_type`) — so the worker's
decision does not agree with the §4.3 validator. -/
theorem C2_counterexample :
    validate_upload_metadata "data.csv" "text/csv" (some "text/csv")
        (some 100) (some (asciiBytes "a,b")) (some DEFAULT_MAX_SIZE_BYTES) =
      ⟨true, none⟩ ∧
    scan_policy_decision "text/csv" (some "text/csv") (some 100) csvEnv =
      ScanDecision.quarantine "disallowed_type" ∧
    (scan_file (some csvRow) csvEnv ⟨0, 0⟩).result = "quarantined" := by
  exact ⟨by decide, by decide, by decide⟩

/-- C2, amended: the worker does not run the §4.3 validator; before the
quota step it proceeds toward ACTIVE exactly when a sniff value is
present, the refreshed size is within 50 MiB, any triggered Office-ZIP
structural check passed, the declared base MIME is in the worker's own
allow-list, and the sniffed base MIME is in that list or covered by the
Office-ZIP case. -/
theorem C2_scan_decision_spec :
    ∀ (declared : String) (sniffed : Option String) (size : Option Nat)
      (env : ScanEnv),
    scan_policy_decision declared sniffed size env = ScanDecision.proceed ↔
      ∃ sn, sniffed = some sn ∧
        (∀ s, size = some s → s ≤ MAX_SIZE_BYTES) ∧
        (((OFFICE_ZIP_MIME_TYPES (splitSemiFirst declared)).isSome = true ∧
            (splitSemiFirst sn = "application/zip" ∨
             splitSemiFirst sn = "application/octet-stream")) →
          is_valid_office_zip env (splitSemiFirst declared) = true) ∧
        splitSemiFirst declared ∈ SCANNER_ALLOWED_CONTENT_TYPES ∧
        (splitSemiFirst sn ∈ SCANNER_ALLOWED_CONTENT_TYPES ∨
          ((OFFICE_ZIP_MIME_TYPES (splitSemiFirst declared)).isSome = true ∧
            (splitSemiFirst sn = "application/zip" ∨
             splitSemiFirst sn = "application/octet-stream"))) := by
  intro declared sniffed size env
  cases sniffed with
  | none => simp [scan_policy_decision]
  | some sn =>
    simp only [scan_policy_decision]
    split
    · next hsz =>
      constructor
      · intro h
        exact absurd h (by simp)
      · rintro ⟨sn2, hsn2, hbound, -, -, -⟩
        injection hsn2 with hsn2
        subst hsn2
        rcases size with _ | s
        · simp at hsz
        · simp only [Bool.and_eq_true, decide_eq_true_eq] at hsz
          exact absurd (hbound s rfl) (by omega)
    · next hsz =>
      have hbound : ∀ s, size = some s → s ≤ MAX_SIZE_BYTES := by
        intro s hs
        subst hs
        by_contra hgt
        apply hsz
        show (decide (s ≠ 0) && decide (s > MAX_SIZE_BYTES)) = true
        have h0 : 0 < MAX_SIZE_BYTES := by norm_num [MAX_SIZE_BYTES]
        simp only [Bool.and_eq_true, decide_eq_true_eq]
        omega
      split
      · next hoff =>
        simp only [Bool.and_eq_true, Bool.not_eq_true', decide_eq_true_eq,
          Bool.or_eq_true] at hoff
        constructor
        · intro h
          exact absurd h (by simp)
        · rintro ⟨sn2, hsn2, -, hvalid, -, -⟩
          injection hsn2 with hsn2
          subst hsn2
          exact absurd (hvalid ⟨hoff.1.1, hoff.1.2⟩) (by simp [hoff.2])
      · next hoff =>
        have hoffimp :
            ((OFFICE_ZIP_MIME_TYPES (splitSemiFirst declared)).isSome = true ∧
              (splitSemiFirst sn = "application/zip" ∨
                splitSemiFirst sn = "application/octet-stream")) →
            is_valid_office_zip env (splitSemiFirst declared) = true := by
          intro hsvo
          by_contra hval
          apply hoff
          simp only [Bool.and_eq_true, Bool.not_eq_true', decide_eq_true_eq,
            Bool.or_eq_true]
          exact ⟨⟨hsvo.1, hsvo.2⟩, Bool.eq_false_iff.mpr hval⟩
        split
        · next hok =>
          simp only [Bool.and_eq_true, decide_eq_true_eq, Bool.or_eq_true]
            at hok
          constructor
          · intro _
            exact ⟨sn, rfl, hbound, hoffimp, hok.1, hok.2⟩
          · intro _
            rfl
        · next hnok =>
          constructor
          · intro h
            exact absurd h (by simp)
          · rintro ⟨sn2, hsn2, -, -, hdecl, hsniff⟩
            injection hsn2 with hsn2
            subst hsn2
            apply absurd _ hnok
            simp only [Bool.and_eq_true, decide_eq_true_eq, Bool.or_eq_true]
            exact ⟨hdecl, hsniff⟩

/-- C2 witness: a plain-text upload satisfies the amended proceed
condition, so the worker proceeds toward ACTIVE. -/
theorem C2_scan_decision_spec_witness :
    scan_policy_decision "text/plain" (some "text/plain") (some 5) csvEnv =
      ScanDecision.proceed := by
  refine (C2_scan_decision_spec "text/plain" (some "text/plain") (some 5)
    csvEnv).mpr ⟨"text/plain", rfl, ?_, ?_, by decide, by decide⟩
  · intro s hs
    cases hs
    decide
  · intro h
    exact absurd h.1 (by decide)

/-- C3, counterexample: a file named `a.docx` whose declared and sniffed
MIME is `text/plain` is never parsed as a ZIP — the worker activates it
even though its content is `not-a-zip`, while the claim requires
QUARANTINED with `office_zip_invalid` for every `.docx` filename. -/
theorem C3_counterexample :
    pathSuffix docxTextRow.original_filename = ".docx" ∧
    (scan_file (some docxTextRow) docxTextEnv ⟨0, 0⟩).result = "active" ∧
    (scan_file (some docxTextRow) docxTextEnv ⟨0, 0⟩).reason = none := by
  exact ⟨by decide, by decide, by decide⟩

/-- C3, amended: the Office structural check is keyed on the declared
base MIME (not the filename extension): the worker quarantines with
`office_zip_invalid` exactly when the declared base MIME is one of the
three OOXML MIMEs, the sniffed base MIME is `application/zip` or
`application/octet-stream`, the size gate passed, and the ZIP validation
failed; and the ZIP validation succeeds exactly when the streamed object
is within 50 MiB, the archive parses, and every required entry
(`[Content_Types].xml` plus the type-specific entry for the declared
MIME) is present. -/
theorem C3_office_check :
    (∀ (declared sn : String) (size : Option Nat) (env : ScanEnv),
      scan_policy_decision declared (some sn) size env =
          ScanDecision.quarantine "office_zip_invalid" ↔
        (∀ s, size = some s → s ≤ MAX_SIZE_BYTES) ∧
        (OFFICE_ZIP_MIME_TYPES (splitSemiFirst declared)).isSome = true ∧
        (splitSemiFirst sn = "application/zip" ∨
          splitSemiFirst sn = "application/octet-stream") ∧
        is_valid_office_zip env (splitSemiFirst declared) = false) ∧
    (∀ (env : ScanEnv) (mime : String) (required : List String),
      OFFICE_ZIP_MIME_TYPES mime = some required →
        (is_valid_office_zip env mime = true ↔
          env.object_total_size ≤ MAX_SIZE_BYTES ∧
          ∃ names, env.zip_entries = some names ∧
            ∀ r ∈ required, r ∈ names)) := by
  constructor
  · intro declared sn size env
    simp only [scan_policy_decision]
    split
    · next hsz =>
      constructor
      · intro h
        exact absurd h (by simp)
      · rintro ⟨hbound, -, -, -⟩
        rcases size with _ | s
        · simp at hsz
        · simp only [Bool.and_eq_true, decide_eq_true_eq] at hsz
          exact absurd (hbound s rfl) (by omega)
    · next hsz =>
      have hbound : ∀ s, size = some s → s ≤ MAX_SIZE_BYTES := by
        intro s hs
        subst hs
        by_contra hgt
        apply hsz
        show (decide (s ≠ 0) && decide (s > MAX_SIZE_BYTES)) = true
        have h0 : 0 < MAX_SIZE_BYTES := by norm_num [MAX_SIZE_BYTES]
        simp only [Bool.and_eq_true, decide_eq_true_eq]
        omega
      split
      · next hoff =>
        simp only [Bool.and_eq_true, Bool.not_eq_true', decide_eq_true_eq,
          Bool.or_eq_true] at hoff
        constructor
        · intro _
          exact ⟨hbound, hoff.1.1, hoff.1.2, hoff.2⟩
        · intro _
          rfl
      · next hoff =>
        constructor
        · intro h
          split at h
          · exact absurd h (by simp)
          · exact absurd h (by simp)
        · rintro ⟨-, hsome, hzip, hval⟩
          apply absurd _ hoff
          simp only [Bool.and_eq_true, Bool.not_eq_true', decide_eq_true_eq,
            Bool.or_eq_true]
          exact ⟨⟨hsome, hzip⟩, hval⟩
  · intro env mime required hreq
    simp only [is_valid_office_zip, hreq]
    split
    · next hbig =>
      constructor
      · intro h
        exact absurd h (by simp)
      · rintro ⟨hle, -⟩
        omega
    · next hbig =>
      cases hent : env.zip_entries with
      | none =>
        simp only []
        constructor
        · intro h
          exact absurd h (by simp)
        · rintro ⟨-, names, hnames, -⟩
          exact Option.noConfusion hnames
      | some names =>
        simp only [List.all_eq_true, decide_eq_true_eq]
        constructor
        · intro h
          exact ⟨by omega, names, rfl, h⟩
        · rintro ⟨-, names2, hnames2, hmem⟩
          injection hnames2 with hnames2
          subst hnames2
          exact hmem

/-- C3 witness: a declared-docx object sniffed `application/zip` whose
ZIP parse fails is quarantined `office_zip_invalid`; and a well-formed
archive containing both required docx entries passes the structural
check. -/
theorem C3_office_check_witness :
    scan_policy_decision
        "application/vnd.openxmlformats-officedocument.wordprocessingml.document"
        (some "application/zip") (some 10)
        ⟨some 10, some [0x50], some "application/zip", 10, none⟩ =
      ScanDecision.quarantine "office_zip_invalid" ∧
    is_valid_office_zip
        ⟨some 10, some [0x50], some "application/zip", 10,
          some ["[Content_Types].xml", "word/document.xml"]⟩
        "application/vnd.openxmlformats-officedocument.wordprocessingml.document"
      = true := by
  constructor
  · refine (C3_office_check.1 _ _ _ _).mpr ⟨?_, by decide, by decide, by decide⟩
    intro s hs
    cases hs
    decide
  · refine (C3_office_check.2 _ _ ["[Content_Types].xml", "word/document.xml"]
      (by decide)).mpr ⟨by decide, ["[Content_Types].xml", "word/document.xml"],
        rfl, by decide⟩

/-! ## Claim C4 — the 50 MiB cap at `complete` -/

/-- With `max_size_bytes = None` the validator can never fail with
`too_large` (that reason only arises from the global-cap comparison). -/
theorem validate_max_none_no_too_large (fn dc : String) (sn : Option String)
    (sz : Option Nat) (sb : Option (List Nat)) :
    (validate_upload_metadata fn dc sn sz sb none).reason ≠
      some "too_large" := by
  simp only [validate_upload_metadata]
  split
  · simp
  · split
    · simp
    · split
      · next h =>
        rcases sz with _ | s <;> simp at h
      · split
        · simp
        · split
          · simp
          · split
            · simp
            · split
              · simp
              · split
                · simp
                · split
                  · simp
                  · simp

def u1 : AuthUser := ⟨"u1", UserRole.user⟩

/-- A 50 MiB + 1 byte authenticated text upload at `complete`. -/
def bigTxtRow : FileObject :=
  ⟨"u1", none, "big.txt", "text/plain", "h", false, none, none,
    FileState.INITIATED, none⟩

def bigTxtEnv : CompleteEnv :=
  ⟨some (some 52428801), "h", some (asciiBytes "hello"), some "text/plain"⟩

/-- C4, counterexample: an authenticated (non-demo) `complete` of a
52428801-byte object does not fail `too_large` and does not quarantine —
it transitions to SCANNING, because `complete` passes
`max_size_bytes = None` for non-demo callers. -/
theorem C4_counterexample :
    DEFAULT_MAX_SIZE_BYTES < 52428801 ∧
    (complete_upload (some bigTxtRow) (some u1) none bigTxtEnv 0).response =
      .ok ⟨FileState.SCANNING, some "text/plain"⟩ ∧
    (complete_upload (some bigTxtRow) (some u1) none bigTxtEnv 0).reason =
      none := by
  exact ⟨by decide, rfl, by decide⟩

/-- C4, amended: `complete` invokes the §4.3 validator with
`max_size_bytes = None` for non-demo callers, so an authenticated
`complete` never records a `too_large` failure regardless of size; the
50 MiB global cap is enforced by the scan worker, which quarantines any
SCANNING object whose refreshed size exceeds `MAX_SIZE_BYTES` with reason
`too_large` (given a sniff value is present). -/
theorem C4_size_cap_location :
    (∀ (row : FileObject) (cu : Option AuthUser) (demo : Option String)
       (env : CompleteEnv) (now : Nat),
      row.demo_id = none →
      (complete_upload (some row) cu demo env now).reason ≠
        some "too_large") ∧
    (∀ (row : FileObject) (env : ScanEnv) (counter : UsageCounter) (s : Nat),
      row.state = FileState.SCANNING →
      (scanSniffed row env).isSome = true →
      env.head_content_length = some s →
      s > MAX_SIZE_BYTES →
      (scan_file (some row) env counter).result = "quarantined" ∧
      (scan_file (some row) env counter).reason = some "too_large") := by
  constructor
  · intro row cu demo env now hdemo
    simp only [complete_upload, hdemo, strTruthy]
    repeat' split
    all_goals
      first
        | exact validate_max_none_no_too_large _ _ _ _ _
        | simp_all
  · intro row env counter s hstate hsniff hhead hgt
    obtain ⟨sn, hsn⟩ := Option.isSome_iff_exists.mp hsniff
    have hdec :
        scan_policy_decision row.declared_content_type (scanSniffed row env)
          env.head_content_length env = ScanDecision.quarantine "too_large" := by
      rw [hsn, hhead]
      have hc : (decide (s ≠ 0) && decide (s > MAX_SIZE_BYTES)) = true := by
        simp only [Bool.and_eq_true, decide_eq_true_eq]
        have h0 : 0 < MAX_SIZE_BYTES := by norm_num [MAX_SIZE_BYTES]
        omega
      simp only [scan_policy_decision]
      rw [if_pos hc]
    simp only [scan_file]
    rw [if_neg (by simp [hstate])]
    simp only [hdec]
    exact ⟨trivial, trivial⟩

/-- A SCANNING row whose blob HEAD reports 50 MiB + 1. -/
def scanBigRow : FileObject :=
  ⟨"u1", none, "big.txt", "text/plain", "h", true, none, some "text/plain",
    FileState.SCANNING, none⟩

def scanBigEnv : ScanEnv :=
  ⟨some 52428801, some (asciiBytes "x"), some "text/plain", 1, none⟩

/-- C4 witness: the non-demo `complete` above records no `too_large`, and
the worker quarantines the same oversized object with `too_large`. -/
theorem C4_size_cap_location_witness :
    (complete_upload (some bigTxtRow) (some u1) none bigTxtEnv 0).reason ≠
      some "too_large" ∧
    (scan_file (some scanBigRow) scanBigEnv ⟨0, 0⟩).result = "quarantined" ∧
    (scan_file (some scanBigRow) scanBigEnv ⟨0, 0⟩).reason =
      some "too_large" := by
  refine ⟨C4_size_cap_location.1 bigTxtRow (some u1) none bigTxtEnv 0 rfl,
    (C4_size_cap_location.2 scanBigRow scanBigEnv ⟨0, 0⟩ 52428801 rfl
      (by decide) rfl (by decide)).1,
    (C4_size_cap_location.2 scanBigRow scanBigEnv ⟨0, 0⟩ 52428801 rfl
      (by decide) rfl (by decide)).2⟩

/-! ## Claim C5 — the S7 docx scenario -/

def docxMime : String :=
  "application/vnd.openxmlformats-officedocument.wordprocessingml.document"

/-- For a `.docx` name declared as the docx MIME but sniffed `text/plain`,
the validator stops at the sniff-list check: `text/plain` is not among the
Office sniff MIMEs, so the reason is `sniff_mismatch` (the magic check is
never reached). -/
theorem validate_docx_plaintext (sz : Option Nat) (sb : Option (List Nat)) :
    validate_upload_metadata "resume.docx" docxMime (some "text/plain") sz sb
      none = ⟨false, some "sniff_mismatch"⟩ := rfl

def resumeRow : FileObject :=
  ⟨"u1", none, "resume.docx", docxMime, "h", false, none, none,
    FileState.INITIATED, none⟩

def resumeEnv : CompleteEnv :=
  ⟨some (some 9), "h", some (asciiBytes "not-a-zip"), some "text/plain"⟩

/-- C5, counterexample: on the S7 input (body `not-a-zip`, sniffed
`text/plain`), `complete` records reason `sniff_mismatch`, not the
claimed `magic_mismatch` (the state is QUARANTINED as claimed). -/
theorem C5_counterexample :
    (complete_upload (some resumeRow) (some u1) none resumeEnv 0).reason =
      some "sniff_mismatch" ∧
    (complete_upload (some resumeRow) (some u1) none resumeEnv 0).reason ≠
      some "magic_mismatch" ∧
    (complete_upload (some resumeRow) (some u1) none resumeEnv 0).response =
      .ok ⟨FileState.QUARANTINED, some "text/plain"⟩ := by
  exact ⟨by decide, by decide, rfl⟩

/-- C5, amended: for any authorized, unexpired `complete` of an INITIATED
non-demo object named `resume.docx` with the docx declared MIME, matching
checksum, and content sniffed `text/plain`, the object is QUARANTINED and
the recorded policy reason is `sniff_mismatch`. -/
theorem C5_docx_plaintext_quarantine :
    ∀ (row : FileObject) (cu : Option AuthUser) (demo : Option String)
      (env : CompleteEnv) (now : Nat) (cl : Option Nat),
      fileAccessError row cu demo = none →
      row.state = FileState.INITIATED →
      row.upload_expires_at = none →
      row.demo_id = none →
      env.head = some cl →
      env.computed_sha256 = row.checksum_sha256 →
      bytesTruthy env.sample = true →
      env.magic_mime = some "text/plain" →
      row.original_filename = "resume.docx" →
      row.declared_content_type = docxMime →
      (complete_upload (some row) cu demo env now).response =
        .ok ⟨FileState.QUARANTINED, some "text/plain"⟩ ∧
      (complete_upload (some row) cu demo env now).reason =
        some "sniff_mismatch" ∧
      ∃ row2, (complete_upload (some row) cu demo env now).row = some row2 ∧
        row2.state = FileState.QUARANTINED := by
  intro row cu demo env now cl hacc hstate hexp hdemo hhead hsha hsample
    hmagic hfn hdc
  simp only [complete_upload, hacc, hstate, hexp, hdemo, hhead, hsha, hsample,
    hmagic, hfn, hdc, strTruthy]
  simp [validate_docx_plaintext cl env.sample]

/-- C5 witness: the scenario hypotheses hold at the concrete S7 fixture. -/
theorem C5_docx_plaintext_quarantine_witness :
    (complete_upload (some resumeRow) (some u1) none resumeEnv 0).response =
      .ok ⟨FileState.QUARANTINED, some "text/plain"⟩ ∧
    (complete_upload (some resumeRow) (some u1) none resumeEnv 0).reason =
      some "sniff_mismatch" ∧
    ∃ row2,
      (complete_upload (some resumeRow) (some u1) none resumeEnv 0).row =
        some row2 ∧ row2.state = FileState.QUARANTINED := by
  exact C5_docx_plaintext_quarantine resumeRow (some u1) none resumeEnv 0
    (some 9) (by decide) rfl rfl rfl rfl rfl (by decide) rfl rfl rfl

/-! ## Claim C7 — successful `complete` calls -/

/-- C7: every `complete` whose response is ok with state SCANNING started
from an INITIATED row, set `checksum_verified = true`, left the row in
SCANNING, enqueued the scan job, and returned
`{state, sniffed_content_type}`. -/
theorem C7_complete_success :
    ∀ (row0 : Option FileObject) (cu : Option AuthUser) (demo : Option String)
      (env : CompleteEnv) (now : Nat) (resp : CompleteResponse),
      (complete_upload row0 cu demo env now).response = .ok resp →
      resp.state = FileState.SCANNING →
      ∃ row row2, row0 = some row ∧ row.state = FileState.INITIATED ∧
        (complete_upload row0 cu demo env now).row = some row2 ∧
        row2.checksum_verified = true ∧
        row2.state = FileState.SCANNING ∧
        (complete_upload row0 cu demo env now).enqueued = true ∧
        resp = ⟨FileState.SCANNING, row2.sniffed_content_type⟩ := by
  intro row0 cu demo env now resp
  cases row0 with
  | none =>
    intro h
    exact absurd h (by simp [complete_upload])
  | some row =>
    simp only [complete_upload]
    repeat' split
    all_goals intro h1 h2
    all_goals simp at h1
    all_goals try subst h1
    all_goals simp_all

/-- A happy-path `complete` fixture: `note.txt` as in scenario S1. -/
def noteRow : FileObject :=
  ⟨"u1", none, "note.txt", "text/plain", "h", false, none, none,
    FileState.INITIATED, none⟩

def noteEnv : CompleteEnv :=
  ⟨some (some 16), "h", some (asciiBytes "valid plain text"), some "text/plain"⟩

/-- C7 witness: the S1 happy path satisfies the conclusion. -/
theorem C7_complete_success_witness :
    ∃ row row2, some noteRow = some row ∧ row.state = FileState.INITIATED ∧
      (complete_upload (some noteRow) (some u1) none noteEnv 0).row =
        some row2 ∧
      row2.checksum_verified = true ∧
      row2.state = FileState.SCANNING ∧
      (complete_upload (some noteRow) (some u1) none noteEnv 0).enqueued =
        true ∧
      (⟨FileState.SCANNING, some "text/plain"⟩ : CompleteResponse) =
        ⟨FileState.SCANNING, row2.sniffed_content_type⟩ := by
  exact C7_complete_success (some noteRow) (some u1) none noteEnv 0
    ⟨FileState.SCANNING, some "text/plain"⟩ rfl rfl

/-! ## Claim C8 — state violations are 400s with no mutation -/

/-- C8: for an authorized caller, `bad_state`, `expired`, and
`object_not_uploaded` each fail with HTTP 400, the row is returned
unmodified (in particular it stays INITIATED in the not-uploaded case),
and no scan is enqueued. -/
theorem C8_state_violations :
    ∀ (row : FileObject) (cu : Option AuthUser) (demo : Option String)
      (env : CompleteEnv) (now : Nat),
      fileAccessError row cu demo = none →
      (row.state ≠ FileState.INITIATED →
        complete_upload (some row) cu demo env now =
          ⟨.error ⟨400, "Upload not in INITIATED state"⟩, some row, false,
            none⟩) ∧
      (row.state = FileState.INITIATED →
        (∃ t, row.upload_expires_at = some t ∧ t < now) →
        complete_upload (some row) cu demo env now =
          ⟨.error ⟨400, "Upload request expired"⟩, some row, false, none⟩) ∧
      (row.state = FileState.INITIATED →
        (∀ t, row.upload_expires_at = some t → ¬ t < now) →
        env.head = none →
        complete_upload (some row) cu demo env now =
          ⟨.error ⟨400, "Object not uploaded"⟩, some row, false, none⟩) := by
  intro row cu demo env now hacc
  refine ⟨?_, ?_, ?_⟩
  · intro hbad
    simp [complete_upload, hacc, hbad]
  · rintro hstate ⟨t, hexp, hlt⟩
    simp [complete_upload, hacc, hstate, hexp, hlt]
  · intro hstate hexp hhead
    have hexpf : (match row.upload_expires_at with
        | some t => decide (t < now)
        | none => false) = false := by
      cases hx : row.upload_expires_at with
      | none => rfl
      | some t => simpa using hexp t hx
    simp [complete_upload, hacc, hstate, hexpf, hhead]

/-- An already-completed row for the bad-state witness. -/
def scannedNoteRow : FileObject :=
  ⟨"u1", none, "note.txt", "text/plain", "h", true, some 16,
    some "text/plain", FileState.SCANNING, none⟩

/-- An INITIATED row with a presign deadline in the past. -/
def staleNoteRow : FileObject :=
  ⟨"u1", none, "note.txt", "text/plain", "h", false, none, none,
    FileState.INITIATED, some 10⟩

def missingEnv : CompleteEnv :=
  ⟨none, "h", none, none⟩

/-- C8 witness: the three violations at concrete fixtures. -/
theorem C8_state_violations_witness :
    complete_upload (some scannedNoteRow) (some u1) none noteEnv 0 =
      ⟨.error ⟨400, "Upload not in INITIATED state"⟩, some scannedNoteRow,
        false, none⟩ ∧
    complete_upload (some staleNoteRow) (some u1) none noteEnv 99 =
      ⟨.error ⟨400, "Upload request expired"⟩, some staleNoteRow, false,
        none⟩ ∧
    complete_upload (some noteRow) (some u1) none missingEnv 0 =
      ⟨.error ⟨400, "Object not uploaded"⟩, some noteRow, false, none⟩ := by
  refine ⟨?_, ?_, ?_⟩
  · exact (C8_state_violations scannedNoteRow (some u1) none noteEnv 0
      rfl).1 (by decide)
  · exact (C8_state_violations staleNoteRow (some u1) none noteEnv 99
      rfl).2.1 rfl ⟨10, rfl, by omega⟩
  · refine (C8_state_violations noteRow (some u1) none missingEnv 0
      rfl).2.2 rfl ?_ rfl
    intro t ht
    exact Option.noConfusion ht

/-! ## Claim C10 — demo sessions cannot distinguish foreign files -/

/-- C10: a demo caller whose `demo_id` does not match the record receives
the same `404 File not found` from `complete` and `download-url` as for a
nonexistent file id. -/
theorem C10_demo_isolation :
    ∀ (row : FileObject) (d : String) (env : CompleteEnv) (now : Nat)
      (url : String) (ttl : Nat),
      d ≠ "" →
      row.demo_id ≠ some d →
      (complete_upload (some row) none (some d) env now).response =
        .error ⟨404, "File not found"⟩ ∧
      download_url (some row) none (some d) url ttl =
        .error ⟨404, "File not found"⟩ ∧
      (complete_upload none none (some d) env now).response =
        .error ⟨404, "File not found"⟩ ∧
      download_url none none (some d) url ttl =
        .error ⟨404, "File not found"⟩ := by
  intro row d env now url ttl hd hmismatch
  have hacc : fileAccessError row none (some d) = some ⟨404, "File not found"⟩ := by
    simp [fileAccessError, strTruthy, hd, hmismatch]
  exact ⟨by simp [complete_upload, hacc], by simp [download_url, hacc],
    rfl, rfl⟩

/-- A demo-owned row belonging to session `a`. -/
def demoRow : FileObject :=
  ⟨"a", some "a", "note.txt", "text/plain", "h", false, none, none,
    FileState.INITIATED, none⟩

/-- C10 witness: demo session `b` gets 404 on session `a`'s file and on a
missing file alike. -/
theorem C10_demo_isolation_witness :
    (complete_upload (some demoRow) none (some "b") noteEnv 0).response =
      .error ⟨404, "File not found"⟩ ∧
    download_url (some demoRow) none (some "b") "u" 300 =
      .error ⟨404, "File not found"⟩ ∧
    (complete_upload none none (some "b") noteEnv 0).response =
      .error ⟨404, "File not found"⟩ ∧
    download_url none none (some "b") "u" 300 =
      .error ⟨404, "File not found"⟩ := by
  exact C10_demo_isolation demoRow "b" noteEnv 0 "u" 300 (by decide)
    (by decide)

/-! ## Claim C9 — demo-token round trip: base64 layer -/

theorem b64Val_b64Char : ∀ n, n < 64 → b64Val (b64Char n) = some n := by
  decide

theorem b64Char_ne_pad : ∀ n, n < 64 → b64Char n ≠ '=' := by
  decide

theorem b64decode_b64encode :
    ∀ bs : List Nat, (∀ b ∈ bs, b < 256) →
      b64decode (b64encode bs) = some bs := by
  intro bs
  induction bs using b64encode.induct with
  | case1 =>
    intro _
    rfl
  | case2 a =>
    intro h
    have ha : a < 256 := h a (by simp)
    simp only [b64encode, b64decode]
    rw [if_pos ⟨trivial, trivial, trivial⟩, b64Val_b64Char _ (by omega),
      b64Val_b64Char _ (by omega)]
    simp only [Option.some.injEq, List.cons.injEq, and_true]
    omega
  | case3 a b =>
    intro h
    have ha : a < 256 := h a (by simp)
    have hb : b < 256 := h b (by simp)
    simp only [b64encode, b64decode]
    rw [if_neg, if_pos ⟨trivial, trivial⟩, b64Val_b64Char _ (by omega),
      b64Val_b64Char _ (by omega), b64Val_b64Char _ (by omega)]
    · simp only [Option.some.injEq, List.cons.injEq, and_true]
      omega
    · rintro ⟨hy, -, -⟩
      exact b64Char_ne_pad _ (by omega) hy
  | case4 a b c rest ih =>
    intro h
    have ha : a < 256 := h a (by simp)
    have hb : b < 256 := h b (by simp)
    have hc : c < 256 := h c (by simp)
    have htail : b64decode (b64encode rest) = some rest :=
      ih (fun x hx => h x (by simp [hx]))
    simp only [b64encode, b64decode]
    rw [if_neg, if_neg, b64Val_b64Char _ (by omega),
      b64Val_b64Char _ (by omega), b64Val_b64Char _ (by omega),
      b64Val_b64Char _ (by omega), htail]
    · simp only [Option.some.injEq, List.cons.injEq]
      refine ⟨by omega, by omega, by omega, trivial⟩
    · rintro ⟨hz, -⟩
      exact b64Char_ne_pad _ (by omega) hz
    · rintro ⟨hy, -, -⟩
      exact b64Char_ne_pad _ (by omega) hy

theorem strOfBytes_asciiBytes (s : String)
    (h : ∀ c ∈ s.data, c.toNat < 128) :
    strOfBytes (asciiBytes s) = some s := by
  obtain ⟨sd⟩ := s
  simp only [strOfBytes, asciiBytes]
  rw [if_pos]
  · simp only [Option.some.injEq, List.map_map]
    congr 1
    rw [show (Char.ofNat ∘ Char.toNat) = fun c => Char.ofNat c.toNat from rfl]
    calc sd.map (fun c => Char.ofNat c.toNat) = sd.map id :=
          List.map_congr_left (fun c _ => Char.ofNat_toNat c)
      _ = sd := List.map_id sd
  · simp only [List.all_eq_true, List.mem_map]
    rintro b ⟨c, hc, rfl⟩
    exact decide_eq_true (h c hc)

theorem splitFirstDot_append (a b : List Char) (h : '.' ∉ a) :
    splitFirstDot (a ++ '.' :: b) = some (a, b) := by
  induction a with
  | nil => simp [splitFirstDot]
  | cons c a ih =>
    have hc : ¬ c = '.' := fun he => h (he ▸ List.mem_cons_self c a)
    simp only [List.cons_append, splitFirstDot, List.append_eq]
    rw [if_neg hc, ih (fun hm => h (List.mem_cons_of_mem _ hm))]

theorem split3_format (d i t sig : List Char)
    (hd : '.' ∉ d) (hi : '.' ∉ i) (ht : '.' ∉ t) :
    split3 (d ++ '.' :: (i ++ '.' :: (t ++ '.' :: sig))) =
      some (d, i, t, sig) := by
  simp only [split3]
  rw [splitFirstDot_append _ _ hd]
  simp only []
  rw [splitFirstDot_append _ _ hi]
  simp only []
  rw [splitFirstDot_append _ _ ht]

theorem digitChar_toNat : ∀ d, d < 10 → (digitChar d).toNat = 48 + d := by
  decide

theorem natDigitsRevAux_bounds :
    ∀ fuel n, n < fuel →
      ∀ c ∈ natDigitsRevAux n fuel, 48 ≤ c.toNat ∧ c.toNat ≤ 57 := by
  intro fuel
  induction fuel with
  | zero => omega
  | succ fuel ih =>
    intro n hn c hc
    simp only [natDigitsRevAux] at hc
    split at hc
    · next h =>
      simp only [List.mem_singleton] at hc
      subst hc
      rw [digitChar_toNat n h]
      omega
    · next h =>
      rcases List.mem_cons.mp hc with hc1 | hc2
      · subst hc1
        rw [digitChar_toNat _ (Nat.mod_lt n (by omega))]
        omega
      · exact ih (n / 10) (by
          have := Nat.div_lt_self (show 0 < n by omega) (show 1 < 10 by omega)
          omega) c hc2

theorem natDigitsRev_bounds :
    ∀ n, ∀ c ∈ natDigitsRev n, 48 ≤ c.toNat ∧ c.toNat ≤ 57 := by
  intro n
  exact natDigitsRevAux_bounds (n + 1) n (by omega)

theorem natDigitsRev_ne_nil : ∀ n, natDigitsRev n ≠ [] := by
  intro n
  simp only [natDigitsRev, natDigitsRevAux]
  split <;> simp

theorem natRepr_no_dot (n : Nat) : '.' ∉ (natRepr n).data := by
  intro hmem
  simp only [natRepr] at hmem
  have := natDigitsRev_bounds n '.' (List.mem_reverse.mp hmem)
  simp at this

theorem natRepr_ascii (n : Nat) : ∀ c ∈ (natRepr n).data, c.toNat < 128 := by
  intro c hc
  simp only [natRepr] at hc
  have := natDigitsRev_bounds n c (List.mem_reverse.mp hc)
  omega

theorem natDigitsRevAux_foldl :
    ∀ fuel n, n < fuel →
      ((natDigitsRevAux n fuel).reverse).foldl
        (fun a c => a * 10 + (c.toNat - 48)) 0 = n := by
  intro fuel
  induction fuel with
  | zero => omega
  | succ fuel ih =>
    intro n hn
    simp only [natDigitsRevAux]
    split
    · next h =>
      simp only [List.reverse_singleton, List.foldl_cons, List.foldl_nil]
      rw [digitChar_toNat n h]
      omega
    · next h =>
      simp only [List.reverse_cons, List.foldl_append, List.foldl_cons,
        List.foldl_nil]
      rw [ih (n / 10) (by
          have := Nat.div_lt_self (show 0 < n by omega) (show 1 < 10 by omega)
          omega),
        digitChar_toNat _ (Nat.mod_lt n (by omega))]
      omega

theorem natDigitsRev_foldl :
    ∀ n, ((natDigitsRev n).reverse).foldl
      (fun a c => a * 10 + (c.toNat - 48)) 0 = n := by
  intro n
  exact natDigitsRevAux_foldl (n + 1) n (by omega)

theorem parseNatDigits_natRepr (n : Nat) :
    parseNatDigits (natRepr n).data = some n := by
  simp only [parseNatDigits, natRepr]
  rw [if_pos]
  · rw [natDigitsRev_foldl]
  · constructor
    · simp [natDigitsRev_ne_nil n]
    · rw [List.all_reverse]
      simp only [List.all_eq_true]
      intro c hc
      have := natDigitsRev_bounds n c hc
      simp only [Bool.and_eq_true, decide_eq_true_eq]
      omega

theorem string_mk_data (s : String) : (⟨s.data⟩ : String) = s := by
  obtain ⟨l⟩ := s
  rfl

/-- Decode/verify of a freshly minted token reduces to the expiry test. -/
theorem verify_create_demo_token (mac : String → String) (d : String)
    (issued ttl now : Nat)
    (hmac : ∀ s, ∀ c ∈ (mac s).data, c.toNat < 128)
    (hd : ∀ c ∈ d.data, c.toNat < 128)
    (hdot : '.' ∉ d.data) :
    verify_demo_token mac now (create_demo_token mac d issued ttl) =
      if now > issued + ttl then none else some d := by
  have hfulldata :
      (d ++ "." ++ natRepr issued ++ "." ++ natRepr ttl ++ "." ++
        mac (d ++ "." ++ natRepr issued ++ "." ++ natRepr ttl)).data =
      d.data ++ '.' :: ((natRepr issued).data ++ '.' ::
        ((natRepr ttl).data ++ '.' ::
          (mac (d ++ "." ++ natRepr issued ++ "." ++ natRepr ttl)).data)) := by
    simp [String.data_append]
  have hfull_ascii :
      ∀ c ∈ (d ++ "." ++ natRepr issued ++ "." ++ natRepr ttl ++ "." ++
        mac (d ++ "." ++ natRepr issued ++ "." ++ natRepr ttl)).data,
        c.toNat < 128 := by
    rw [hfulldata]
    intro c hcmem
    simp only [List.mem_append, List.mem_cons] at hcmem
    rcases hcmem with h1 | h1 | h1 | h1 | h1 | h1
    · exact hd c h1
    · subst h1
      decide
    · exact natRepr_ascii issued c h1
    · subst h1
      decide
    · exact natRepr_ascii ttl c h1
    · rcases h1 with h1 | h1
      · subst h1
        decide
      · exact hmac _ c h1
  have h1 :
      b64decode (b64encode (asciiBytes
        (d ++ "." ++ natRepr issued ++ "." ++ natRepr ttl ++ "." ++
          mac (d ++ "." ++ natRepr issued ++ "." ++ natRepr ttl)))) =
      some (asciiBytes
        (d ++ "." ++ natRepr issued ++ "." ++ natRepr ttl ++ "." ++
          mac (d ++ "." ++ natRepr issued ++ "." ++ natRepr ttl))) := by
    apply b64decode_b64encode
    intro b hb
    obtain ⟨c, hc, rfl⟩ := List.mem_map.mp hb
    have := hfull_ascii c hc
    omega
  have h2 :
      strOfBytes (asciiBytes
        (d ++ "." ++ natRepr issued ++ "." ++ natRepr ttl ++ "." ++
          mac (d ++ "." ++ natRepr issued ++ "." ++ natRepr ttl))) =
      some (d ++ "." ++ natRepr issued ++ "." ++ natRepr ttl ++ "." ++
        mac (d ++ "." ++ natRepr issued ++ "." ++ natRepr ttl)) :=
    strOfBytes_asciiBytes _ hfull_ascii
  have h3 :
      split3 (d ++ "." ++ natRepr issued ++ "." ++ natRepr ttl ++ "." ++
        mac (d ++ "." ++ natRepr issued ++ "." ++ natRepr ttl)).data =
      some (d.data, (natRepr issued).data, (natRepr ttl).data,
        (mac (d ++ "." ++ natRepr issued ++ "." ++ natRepr ttl)).data) := by
    rw [hfulldata]
    exact split3_format _ _ _ _ hdot (natRepr_no_dot issued)
      (natRepr_no_dot ttl)
  simp only [create_demo_token, verify_demo_token, h1, h2, h3,
    string_mk_data, parseNatDigits_natRepr, ne_eq, not_true_eq_false,
    if_false]

/-- C9: for every dot-free ASCII `demo_id` and ttl, verification of a
freshly created token returns the `demo_id` whenever
`now ≤ issued_at + ttl`; verification returns `None` for every decodable
token whose signature component differs from the HMAC of
`"<demo_id>.<issued_at>.<ttl>"`; and it returns `None` for a minted token
once `now > issued_at + ttl`. -/
theorem C9_demo_token :
    (∀ (mac : String → String) (d : String) (issued ttl now : Nat),
      (∀ s, ∀ c ∈ (mac s).data, c.toNat < 128) →
      (∀ c ∈ d.data, c.toNat < 128) →
      '.' ∉ d.data →
      now ≤ issued + ttl →
      verify_demo_token mac now (create_demo_token mac d issued ttl) =
        some d) ∧
    (∀ (mac : String → String) (now : Nat) (token : String)
       (bytes : List Nat) (s : String) (d i t sig : List Char),
      b64decode token.data = some bytes →
      strOfBytes bytes = some s →
      split3 s.data = some (d, i, t, sig) →
      sig ≠ (mac ((⟨d⟩ : String) ++ "." ++ (⟨i⟩ : String) ++ "." ++
        (⟨t⟩ : String))).data →
      verify_demo_token mac now token = none) ∧
    (∀ (mac : String → String) (d : String) (issued ttl now : Nat),
      (∀ s, ∀ c ∈ (mac s).data, c.toNat < 128) →
      (∀ c ∈ d.data, c.toNat < 128) →
      '.' ∉ d.data →
      now > issued + ttl →
      verify_demo_token mac now (create_demo_token mac d issued ttl) =
        none) := by
  refine ⟨?_, ?_, ?_⟩
  · intro mac d issued ttl now hmac hd hdot hle
    rw [verify_create_demo_token mac d issued ttl now hmac hd hdot]
    rw [if_neg (by omega)]
  · intro mac now token bytes s d i t sig hb hs hsplit hsig
    simp only [verify_demo_token, hb, hs, hsplit]
    rw [if_pos hsig]
  · intro mac d issued ttl now hmac hd hdot hgt
    rw [verify_create_demo_token mac d issued ttl now hmac hd hdot]
    rw [if_pos hgt]

/-- C9 witness: a concrete round trip, a signature forgery, and an
expired token, with the HMAC oracle instantiated concretely. -/
theorem C9_demo_token_witness :
    verify_demo_token (fun _ => "aa") 12
      (create_demo_token (fun _ => "aa") "abc" 5 10) = some "abc" ∧
    verify_demo_token (fun _ => "bb") 12
      (create_demo_token (fun _ => "aa") "abc" 5 10) = none ∧
    verify_demo_token (fun _ => "aa") 16
      (create_demo_token (fun _ => "aa") "abc" 5 10) = none := by
  refine ⟨C9_demo_token.1 (fun _ => "aa") "abc" 5 10 12
      (fun s => (by decide : ∀ c ∈ ("aa" : String).data, c.toNat < 128)) (by decide) (by decide) (by omega),
    C9_demo_token.2.1 (fun _ => "bb") 12
      (create_demo_token (fun _ => "aa") "abc" 5 10)
      (asciiBytes "abc.5.10.aa") "abc.5.10.aa" "abc".data "5".data
      "10".data "aa".data (by decide) (by decide) (by decide) (by decide),
    C9_demo_token.2.2 (fun _ => "aa") "abc" 5 10 16
      (fun s => (by decide : ∀ c ∈ ("aa" : String).data, c.toNat < 128)) (by decide) (by decide) (by omega)⟩

end SecureFileUpload
